import Mathlib

/-!
Shallow embedding of the device/context configuration core of an OpenAL-style
audio runtime (`Alc/alc.cpp`): device reconfiguration (`UpdateDeviceParams`),
the deferred-update protocol (`ALCcontext_ProcessUpdates`), the per-device
error latch (`alcGetError`), integer queries (`alcGetIntegerv`), loopback
rendering (`alcRenderSamplesSOFT`) and device reset (`alcResetDeviceSOFT`).

Machine integers are modelled as `Nat`/`Int`; enumeration constants keep the
numeric values of the public OpenAL headers.  Calls into translation units
outside `Alc/alc.cpp` (backend methods, `aluInitRenderer`, `aluMixData`,
`aluHandleDisconnect`, config lookups, the per-object property publishers)
are modelled as oracle inputs or from the specification's description, and
are marked as such in their doc comments.
-/

namespace OpenALSoft

/-- ALC error codes (`ALC_NO_ERROR`, `ALC_INVALID_DEVICE`, ...). -/
inductive ALCerror where
  | NoError
  | InvalidDevice
  | InvalidContext
  | InvalidEnum
  | InvalidValue
  | OutOfMemory
deriving DecidableEq, Repr

/-- Device kinds (`enum DeviceType` in `alMain.h`: `Playback`, `Capture`, `Loopback`). -/
inductive DeviceType where
  | Playback
  | Capture
  | Loopback
deriving DecidableEq, Repr

/-- HRTF request modes (`enum HrtfRequestMode`: `Hrtf_Default`, `Hrtf_Enable`, `Hrtf_Disable`). -/
inductive HrtfMode where
  | Default
  | Enable
  | Disable
deriving DecidableEq, Repr

/-- Calls made into the backend during reconfiguration, in order. -/
inductive BackendEvent where
  | stop
  | reset
  | start
deriving DecidableEq, Repr

/-! ### Numeric constants

`MIN_OUTPUT_RATE`, `MAX_SENDS`, `MAX_AMBI_ORDER` and the `DEFAULT_*` values
live in `alMain.h`, which is not part of the single-file core; their values
are modelled from the spec and the public headers.  The ALC enum key codes
are those of the public `alc.h`/`alext.h` headers. -/

/-- Modelled from the spec: minimum output sample rate (`MIN_OUTPUT_RATE` in `alMain.h`). -/
def MIN_OUTPUT_RATE : Nat := 8000

/-- Modelled from the spec: maximum auxiliary sends per source (`MAX_SENDS`). -/
def MAX_SENDS : Int := 16

/-- Modelled from the spec: maximum ambisonic order (`MAX_AMBI_ORDER`). -/
def MAX_AMBI_ORDER : Int := 3

/-- Modelled from the spec: default period count (`DEFAULT_NUM_UPDATES`). -/
def DEFAULT_NUM_UPDATES : Nat := 3

/-- Modelled from the spec: default period size in frames (`DEFAULT_UPDATE_SIZE`). -/
def DEFAULT_UPDATE_SIZE : Nat := 1024

/-- Modelled from the spec: default output sample rate (`DEFAULT_OUTPUT_RATE`). -/
def DEFAULT_OUTPUT_RATE : Nat := 44100

/-- `ALC_FREQUENCY` attribute key. -/
def ALC_FREQUENCY : Int := 0x1007
/-- `ALC_REFRESH` attribute key. -/
def ALC_REFRESH : Int := 0x1008
/-- `ALC_SYNC` attribute key. -/
def ALC_SYNC : Int := 0x1009
/-- `ALC_MONO_SOURCES` attribute key. -/
def ALC_MONO_SOURCES : Int := 0x1010
/-- `ALC_STEREO_SOURCES` attribute key. -/
def ALC_STEREO_SOURCES : Int := 0x1011
/-- `ALC_FORMAT_CHANNELS_SOFT` attribute key (loopback extension). -/
def ALC_FORMAT_CHANNELS_SOFT : Int := 0x1990
/-- `ALC_FORMAT_TYPE_SOFT` attribute key (loopback extension). -/
def ALC_FORMAT_TYPE_SOFT : Int := 0x1991
/-- `ALC_HRTF_SOFT` attribute key. -/
def ALC_HRTF_SOFT : Int := 0x1992
/-- `ALC_HRTF_ID_SOFT` attribute key. -/
def ALC_HRTF_ID_SOFT : Int := 0x1996
/-- `ALC_AMBISONIC_LAYOUT_SOFT` attribute key. -/
def ALC_AMBISONIC_LAYOUT_SOFT : Int := 0x1997
/-- `ALC_AMBISONIC_SCALING_SOFT` attribute key. -/
def ALC_AMBISONIC_SCALING_SOFT : Int := 0x1998
/-- `ALC_AMBISONIC_ORDER_SOFT` attribute key. -/
def ALC_AMBISONIC_ORDER_SOFT : Int := 0x1999
/-- `ALC_OUTPUT_LIMITER_SOFT` attribute key. -/
def ALC_OUTPUT_LIMITER_SOFT : Int := 0x199A
/-- `ALC_MAX_AUXILIARY_SENDS` attribute key (EFX extension). -/
def ALC_MAX_AUXILIARY_SENDS : Int := 0x20003

/-- `ALC_MONO_SOFT` channel configuration code. -/
def ALC_MONO_SOFT : Int := 0x1500
/-- `ALC_STEREO_SOFT` channel configuration code. -/
def ALC_STEREO_SOFT : Int := 0x1501
/-- `ALC_QUAD_SOFT` channel configuration code. -/
def ALC_QUAD_SOFT : Int := 0x1503
/-- `ALC_5POINT1_SOFT` channel configuration code. -/
def ALC_5POINT1_SOFT : Int := 0x1504
/-- `ALC_6POINT1_SOFT` channel configuration code. -/
def ALC_6POINT1_SOFT : Int := 0x1505
/-- `ALC_7POINT1_SOFT` channel configuration code. -/
def ALC_7POINT1_SOFT : Int := 0x1506
/-- `ALC_BFORMAT3D_SOFT` channel configuration code. -/
def ALC_BFORMAT3D_SOFT : Int := 0x1508

/-- `ALC_BYTE_SOFT` sample type code. -/
def ALC_BYTE_SOFT : Int := 0x1400
/-- `ALC_UNSIGNED_BYTE_SOFT` sample type code. -/
def ALC_UNSIGNED_BYTE_SOFT : Int := 0x1401
/-- `ALC_SHORT_SOFT` sample type code. -/
def ALC_SHORT_SOFT : Int := 0x1402
/-- `ALC_UNSIGNED_SHORT_SOFT` sample type code. -/
def ALC_UNSIGNED_SHORT_SOFT : Int := 0x1403
/-- `ALC_INT_SOFT` sample type code. -/
def ALC_INT_SOFT : Int := 0x1404
/-- `ALC_UNSIGNED_INT_SOFT` sample type code. -/
def ALC_UNSIGNED_INT_SOFT : Int := 0x1405
/-- `ALC_FLOAT_SOFT` sample type code. -/
def ALC_FLOAT_SOFT : Int := 0x1406

/-- `ALC_FUMA_SOFT` ambisonic layout/scaling code. -/
def ALC_FUMA_SOFT : Int := 0x0000
/-- `ALC_ACN_SOFT` ambisonic layout code. -/
def ALC_ACN_SOFT : Int := 0x0001
/-- `ALC_SN3D_SOFT` ambisonic scaling code. -/
def ALC_SN3D_SOFT : Int := 0x0001
/-- `ALC_N3D_SOFT` ambisonic scaling code. -/
def ALC_N3D_SOFT : Int := 0x0002

/-- `ALC_HRTF_DISABLED_SOFT` HRTF status code. -/
def ALC_HRTF_DISABLED_SOFT : Int := 0x0000
/-- `ALC_HRTF_UNSUPPORTED_FORMAT_SOFT` HRTF status code. -/
def ALC_HRTF_UNSUPPORTED_FORMAT_SOFT : Int := 0x0004

/-- `DevFmtStereo` device channel layout (alias of `ALC_STEREO_SOFT` in `alMain.h`). -/
def DevFmtStereo : Int := ALC_STEREO_SOFT

/-- `INT_MAX` for 32-bit `int`/`ALsizei` arithmetic. -/
def INT_MAX : Int := 2147483647

/-- `clampi` from `alMain.h`: clamp an integer into a closed interval. -/
def clampi (val minv maxv : Int) : Int := min maxv (max minv val)

/-- `clampu` from `alMain.h`: clamp an unsigned integer into a closed interval. -/
def clampu (val minv maxv : Nat) : Nat := min maxv (max minv val)

/-- Conversion of a signed 32-bit attribute value to `ALCuint`, as the C
assignment `freq = attrList[attrIdx + 1]` performs. -/
def toALCuint (v : Int) : Nat := (v % 4294967296).toNat

/-! ### Per-source and per-context state touched by `UpdateDeviceParams` -/

/-- The part of a live source `UpdateDeviceParams` touches: the length of its
`Send` array and its `PropsClean` flag. -/
structure SrcState where
  sends : Int
  propsClean : Bool
deriving DecidableEq, Repr

/-- The part of an attached context `UpdateDeviceParams` touches.
`slotUpdateFails` is the oracle outcome of the `state->deviceUpdate(device)`
calls made for this context's effect slots (their implementations live in the
effect sources outside `alc.cpp`): `true` when any of them returns `AL_FALSE`. -/
structure CtxState where
  srcs : List SrcState
  propsClean : Bool
  lisClean : Bool
  slotUpdateFails : Bool
deriving DecidableEq, Repr

/-! ### The device record

Only fields read or written by the embedded operations appear; pointers into
the mix buffer are modelled as channel offsets. -/

/-- The `ALCdevice` fields used by the embedded operations of `alc.cpp`.
The flag bits of `device->Flags` appear as individual booleans. -/
structure ALCdevice where
  devType : DeviceType
  running : Bool
  paused : Bool
  frequencyRequest : Bool
  channelsRequest : Bool
  sampleTypeRequest : Bool
  Frequency : Nat
  FmtChans : Int
  FmtType : Int
  UpdateSize : Nat
  NumUpdates : Nat
  NumMonoSources : Int
  NumStereoSources : Int
  SourcesMax : Int
  NumAuxSends : Int
  AmbiOrder : Int
  AmbiLayout : Int
  AmbiScale : Int
  MixBufferLen : Nat
  DryChans : Nat
  FOAChans : Nat
  RealChans : Nat
  DryBufOff : Nat
  FOABufOff : Nat
  RealBufOff : Nat
  Connected : Bool
  LastError : ALCerror
  HrtfStatus : Int
  HrtfHandle : Bool
  SamplesDone : Nat
  ClockBase : Nat
  MixCount : Nat
  contexts : List CtxState
deriving DecidableEq, Repr

/-! ### Error latch (`alcSetError` / `alcGetError`) -/

/-- The two last-error latches: the per-device `device->LastError` and the
process-wide `LastNullDeviceError`. -/
structure ErrState where
  devErr : ALCerror
  nullErr : ALCerror
deriving DecidableEq, Repr

/-- `alcGetError` (`alc.cpp:2689`): when the argument verifies against the
device list, exchange the device latch with `NoError` and return the old
value; otherwise do the same with the process-wide latch.  `verified` is the
outcome of `VerifyDevice`. -/
def alcGetError (verified : Bool) (s : ErrState) : ALCerror × ErrState :=
  if verified then (s.devErr, { s with devErr := ALCerror.NoError })
  else (s.nullErr, { s with nullErr := ALCerror.NoError })

/-! ### `alcRenderSamplesSOFT` -/

/-- `alcRenderSamplesSOFT` (`alc.cpp:4121`).  `dev` is the result of
`VerifyDevice` (`none` when the argument does not verify), `bufferNull`
whether the output pointer is null, `samples` the signed frame count.
Returns the error recorded via `alcSetError` (if any) and the number of
frames handed to the mixer.  `aluMixData` lives outside `alc.cpp` and is
modelled from the spec: it renders exactly the requested frames, a request
of zero frames being a no-op. -/
def alcRenderSamplesSOFT (dev : Option ALCdevice) (bufferNull : Bool)
    (samples : Int) : Option ALCerror × Nat :=
  match dev with
  | none => (some ALCerror.InvalidDevice, 0)
  | some d =>
    if d.devType ≠ DeviceType.Loopback then (some ALCerror.InvalidDevice, 0)
    else if samples < 0 ∨ (samples > 0 ∧ bufferNull) then
      (some ALCerror.InvalidValue, 0)
    else (none, samples.toNat)

/-! ### `alcGetIntegerv` for `ALC_SYNC` and `ALC_REFRESH` -/

/-- Result of a `GetIntegerv` query: the value written into `values[0]` (if
any), the error recorded via `alcSetError` (if any), and the returned count. -/
structure GIResult where
  value : Option Int
  err : Option ALCerror
  count : Nat
deriving DecidableEq, Repr

/-- The `GetIntegerv` dispatch of `alc.cpp:2850` restricted to the
`ALC_REFRESH` and `ALC_SYNC` parameters, covering the size/null guard, the
null-device group, the capture branch (where both fall to the
`ALC_INVALID_ENUM` default) and the render-device branch (where a loopback
device gets `ALC_INVALID_DEVICE` and otherwise `ALC_REFRESH` reports
`Frequency / UpdateSize` and `ALC_SYNC` reports `ALC_FALSE`). -/
def GetIntegervSyncRefresh (dev : Option ALCdevice) (param : Int)
    (size : Int) (valuesNull : Bool) : GIResult :=
  if size ≤ 0 ∨ valuesNull then ⟨none, some ALCerror.InvalidValue, 0⟩
  else
    match dev with
    | none => ⟨none, some ALCerror.InvalidDevice, 0⟩
    | some d =>
      if d.devType = DeviceType.Capture then
        ⟨none, some ALCerror.InvalidEnum, 0⟩
      else if param = ALC_REFRESH then
        if d.devType = DeviceType.Loopback then
          ⟨none, some ALCerror.InvalidDevice, 0⟩
        else ⟨some (Int.ofNat (d.Frequency / d.UpdateSize)), none, 1⟩
      else if param = ALC_SYNC then
        if d.devType = DeviceType.Loopback then
          ⟨none, some ALCerror.InvalidDevice, 0⟩
        else ⟨some 0, none, 1⟩
      else ⟨none, some ALCerror.InvalidEnum, 0⟩

/-! ### The attribute list walk of `UpdateDeviceParams` (`alc.cpp:1635-1714`) -/

/-- Accumulator for the attribute walk, mirroring the locals of
`UpdateDeviceParams`: `schans`, `stype`, `freq`, `alayout`, `ascale`,
`aorder`, `numMono`, `numStereo`, `numSends`, `hrtf_appreq`, `hrtf_id` and
`gainLimiter`. -/
structure AttrAcc where
  schans : Int
  stype : Int
  freq : Nat
  alayout : Int
  ascale : Int
  aorder : Int
  numMono : Int
  numStereo : Int
  numSends : Int
  hrtfApp : HrtfMode
  hrtfId : Int
  gainLimiter : Int
deriving DecidableEq, Repr

/-- One `switch` dispatch of the attribute walk (`alc.cpp:1637-1711`);
unrecognized keys are traced and ignored. -/
def applyAttr (k v : Int) (a : AttrAcc) : AttrAcc :=
  if k = ALC_FORMAT_CHANNELS_SOFT then { a with schans := v }
  else if k = ALC_FORMAT_TYPE_SOFT then { a with stype := v }
  else if k = ALC_FREQUENCY then { a with freq := toALCuint v }
  else if k = ALC_AMBISONIC_LAYOUT_SOFT then { a with alayout := v }
  else if k = ALC_AMBISONIC_SCALING_SOFT then { a with ascale := v }
  else if k = ALC_AMBISONIC_ORDER_SOFT then { a with aorder := v }
  else if k = ALC_MONO_SOURCES then { a with numMono := max v 0 }
  else if k = ALC_STEREO_SOURCES then { a with numStereo := max v 0 }
  else if k = ALC_MAX_AUXILIARY_SENDS then { a with numSends := clampi v 0 MAX_SENDS }
  else if k = ALC_HRTF_SOFT then
    { a with hrtfApp := if v = 0 then HrtfMode.Disable
                        else if v = 1 then HrtfMode.Enable
                        else HrtfMode.Default }
  else if k = ALC_HRTF_ID_SOFT then { a with hrtfId := v }
  else if k = ALC_OUTPUT_LIMITER_SOFT then { a with gainLimiter := v }
  else a

/-- The zero-terminated `(key, value)` walk (`alc.cpp:1635`): stop at a zero
key, otherwise dispatch and advance by two. -/
def parseAttrs : List Int → AttrAcc → AttrAcc
  | k :: v :: rest, a => if k = 0 then a else parseAttrs rest (applyAttr k v a)
  | _, a => a

/-- Starting accumulator of the walk: format fields `AL_NONE`/zero, source
and send counts seeded from the device (`alc.cpp:1587-1598,1630-1632`). -/
def initAttrAcc (dev : ALCdevice) : AttrAcc :=
  { schans := 0, stype := 0, freq := 0, alayout := 0, ascale := 0, aorder := 0,
    numMono := dev.NumMonoSources, numStereo := dev.NumStereoSources,
    numSends := dev.NumAuxSends, hrtfApp := HrtfMode.Default, hrtfId := -1,
    gainLimiter := 0 }

/-! ### Validation helpers (`alc.cpp:1295-1348`) -/

/-- `IsValidALCType` (`alc.cpp:1295`). -/
def IsValidALCType (t : Int) : Bool :=
  t = ALC_BYTE_SOFT ∨ t = ALC_UNSIGNED_BYTE_SOFT ∨ t = ALC_SHORT_SOFT ∨
  t = ALC_UNSIGNED_SHORT_SOFT ∨ t = ALC_INT_SOFT ∨ t = ALC_UNSIGNED_INT_SOFT ∨
  t = ALC_FLOAT_SOFT

/-- `IsValidALCChannels` (`alc.cpp:1311`). -/
def IsValidALCChannels (c : Int) : Bool :=
  c = ALC_MONO_SOFT ∨ c = ALC_STEREO_SOFT ∨ c = ALC_QUAD_SOFT ∨
  c = ALC_5POINT1_SOFT ∨ c = ALC_6POINT1_SOFT ∨ c = ALC_7POINT1_SOFT ∨
  c = ALC_BFORMAT3D_SOFT

/-- `IsValidAmbiLayout` (`alc.cpp:1327`). -/
def IsValidAmbiLayout (l : Int) : Bool :=
  l = ALC_ACN_SOFT ∨ l = ALC_FUMA_SOFT

/-- `IsValidAmbiScaling` (`alc.cpp:1338`). -/
def IsValidAmbiScaling (s : Int) : Bool :=
  s = ALC_N3D_SOFT ∨ s = ALC_SN3D_SOFT ∨ s = ALC_FUMA_SOFT

/-- The loopback format validation of `alc.cpp:1717-1737`: `none` when the
attributes pass, `some ALC_INVALID_VALUE` otherwise. -/
def loopbackValidate (a : AttrAcc) : Option ALCerror :=
  if a.schans = 0 ∨ a.stype = 0 ∨ a.freq = 0 then some ALCerror.InvalidValue
  else if a.schans = ALC_BFORMAT3D_SOFT ∧
      (a.alayout = 0 ∨ a.ascale = 0 ∨ a.aorder = 0) then
    some ALCerror.InvalidValue
  else if ¬IsValidALCChannels a.schans ∨ ¬IsValidALCType a.stype ∨
      a.freq < MIN_OUTPUT_RATE then
    some ALCerror.InvalidValue
  else if ¬IsValidAmbiLayout a.alayout ∨ ¬IsValidAmbiScaling a.ascale then
    some ALCerror.InvalidValue
  else if a.aorder < 1 ∨ a.aorder > MAX_AMBI_ORDER then
    some ALCerror.InvalidValue
  else if (a.alayout = ALC_FUMA_SOFT ∨ a.ascale = ALC_FUMA_SOFT) ∧ a.aorder > 3 then
    some ALCerror.InvalidValue
  else none

/-! ### Oracle inputs for calls made outside `alc.cpp` -/

/-- Backend-chosen device fields after a successful `reset()`.  The backend
may satisfy or override every format field (§4.2 of the spec); the loopback
backend leaves them unchanged, which the oracle expresses by echoing the
pre-reset values. -/
structure ResetOut where
  FmtChans : Int
  FmtType : Int
  Frequency : Nat
  UpdateSize : Nat
  NumUpdates : Nat
deriving DecidableEq, Repr

/-- Modelled from the spec: `aluInitRenderer` (in `Alc/ALu.cpp`, outside the
single-file core) computes the channel counts of the dry, first-order and
real output mixes; a zero `FOAOut`/`RealOut` count means that view aliases
the dry mix. -/
structure RendererOut where
  dry : Nat
  foa : Nat
  real : Nat
deriving DecidableEq, Repr

/-- Oracle inputs of one `UpdateDeviceParams` run: config-file lookups
(`ConfigValue*`, outside the core), CPU capability bits, the user HRTF
config, the HRTF loader outcome, the backend `reset()` result and the
backend `start()` result. -/
structure Externals where
  cfgFreq : Option Nat
  cfgPeriods : Option Nat
  cfgPeriodSize : Option Nat
  cfgSources : Option Int
  cfgSends : Option Int
  sseNeon : Bool
  hrtfUser : HrtfMode
  hrtfLoaded : Option Nat
  reset : Option ResetOut
  renderer : RendererOut
  startOk : Bool
deriving DecidableEq, Repr

/-! ### The phases of `UpdateDeviceParams` (`alc.cpp:1585-2187`) -/

/-- `UpdateClockBase` (`alc.cpp:1567`): bracket with two `MixCount`
increments, fold `SamplesDone` into `ClockBase` (nanoseconds) and zero it. -/
def updateClockBase (dev : ALCdevice) : ALCdevice :=
  { dev with MixCount := dev.MixCount + 2,
             ClockBase := dev.ClockBase + dev.SamplesDone * 1000000000 / dev.Frequency,
             SamplesDone := 0 }

/-- The non-loopback format block (`alc.cpp:1745-1772`): reseed defaults,
apply the `frequency` config override against the attribute-requested rate,
rescale the period count, then apply `periods` and `period_size` overrides
with their clamps and the SSE/NEON multiple-of-4 round-up
`(UpdateSize+3u) & ~3u`. -/
def nonLoopbackFmt (ext : Externals) (afreq : Nat) (dev : ALCdevice) : ALCdevice :=
  let dev := { dev with NumUpdates := DEFAULT_NUM_UPDATES,
                        UpdateSize := DEFAULT_UPDATE_SIZE,
                        Frequency := DEFAULT_OUTPUT_RATE }
  let freq := ext.cfgFreq.getD afreq
  let dev :=
    if freq < 1 then { dev with frequencyRequest := false }
    else
      let freq := max freq MIN_OUTPUT_RATE
      { dev with NumUpdates := (dev.NumUpdates * freq + dev.NumUpdates / 2) / dev.Frequency,
                 Frequency := freq, frequencyRequest := true }
  let dev := { dev with NumUpdates := clampu (ext.cfgPeriods.getD dev.NumUpdates) 2 16 }
  let us := clampu (ext.cfgPeriodSize.getD dev.UpdateSize) 64 8192
  { dev with UpdateSize := if ext.sseNeon then (us + 3) &&& 4294967292 else us }

/-- The loopback format block (`alc.cpp:1776-1784`): install the requested
frequency, channel layout and sample type, and the ambisonic parameters when
the layout is `ALC_BFORMAT3D_SOFT`. -/
def loopbackFmt (a : AttrAcc) (dev : ALCdevice) : ALCdevice :=
  let dev := { dev with Frequency := a.freq, FmtChans := a.schans, FmtType := a.stype }
  if a.schans = ALC_BFORMAT3D_SOFT then
    { dev with AmbiOrder := a.aorder, AmbiLayout := a.alayout, AmbiScale := a.ascale }
  else dev

/-- The source-count resolution (`alc.cpp:1787-1802`): guard the sum against
`INT_MAX`, apply the `sources` config override or the 256 floor, split the
total back into mono and stereo and store the results. -/
def resolveSources (cfgSources : Option Int) (numMono numStereo : Int)
    (dev : ALCdevice) : ALCdevice :=
  let numMono := if numMono > INT_MAX - numStereo then INT_MAX - numStereo else numMono
  let numMono := numMono + numStereo
  let numMono :=
    match cfgSources with
    | some v => if v ≤ 0 then 256 else v
    | none => max numMono 256
  let numStereo := min numStereo numMono
  let numMono := numMono - numStereo
  { dev with SourcesMax := numMono + numStereo,
             NumMonoSources := numMono, NumStereoSources := numStereo }

/-- The send-count resolution (`alc.cpp:1804-1807`): the `sends` config
override caps the attribute-requested count, which otherwise stands. -/
def resolveSends (cfgSends : Option Int) (numSends : Int) : Int :=
  match cfgSends with
  | some v => min numSends (clampi v 0 MAX_SENDS)
  | none => numSends

/-- Does `UpdateDeviceParams` consider the attribute list missing
(`!attrList || !attrList[0]`, `alc.cpp:1600,1607`)? -/
def attrsEmpty : Option (List Int) → Bool
  | none => true
  | some [] => true
  | some (k :: _) => k = 0

/-- Successful outcome of the attribute block: the updated device, the
resolved send count and the HRTF request carried to the later phases,
plus the backend calls made. -/
structure AttrOut where
  dev : ALCdevice
  newSends : Int
  hrtfApp : HrtfMode
  hrtfId : Int
  events : List BackendEvent
deriving DecidableEq, Repr

/-- The attribute block of `UpdateDeviceParams` (`alc.cpp:1607-1808`).  With
a missing list it is skipped entirely; otherwise: stop a running non-loopback
backend before the walk (`1619-1628`), walk the pairs, validate the loopback
format, stop any still-running backend (`1739-1741`), advance the clock base
(`1743`), run the per-kind format block, and resolve source and send
counts. -/
def attrPhase (ext : Externals) (attrs : Option (List Int)) (dev : ALCdevice) :
    Except ALCerror AttrOut :=
  if attrsEmpty attrs then
    Except.ok ⟨dev, dev.NumAuxSends, HrtfMode.Default, -1, []⟩
  else
    let lp := dev.devType = DeviceType.Loopback
    let evs : List BackendEvent :=
      if ¬lp ∧ dev.running then [BackendEvent.stop] else []
    let dev := if ¬lp then { dev with running := false } else dev
    let a := parseAttrs ((attrs.getD [])) (initAttrAcc dev)
    match (if lp then loopbackValidate a else none) with
    | some e => Except.error e
    | none =>
      let evs := if dev.running then evs ++ [BackendEvent.stop] else evs
      let dev := { dev with running := false }
      let dev := updateClockBase dev
      let dev := if ¬lp then nonLoopbackFmt ext a.freq dev else loopbackFmt a dev
      let dev := resolveSources ext.cfgSources a.numMono a.numStereo dev
      Except.ok ⟨dev, resolveSends ext.cfgSends a.numSends, a.hrtfApp, a.hrtfId, evs⟩

/-- The reset of derived output state before renegotiation
(`alc.cpp:1813-1836`): null the mix views, drop the mix buffer, advance the
clock base again, and reset the HRTF status to `ALC_HRTF_DISABLED_SOFT`. -/
def preResetClear (dev : ALCdevice) : ALCdevice :=
  let dev := { dev with DryChans := 0, FOAChans := 0, RealChans := 0,
                        DryBufOff := 0, FOABufOff := 0, RealBufOff := 0,
                        MixBufferLen := 0 }
  let dev := updateClockBase dev
  { dev with HrtfStatus := ALC_HRTF_DISABLED_SOFT }

/-- The HRTF request block (`alc.cpp:1837-1879`) for non-loopback devices:
when the user config or the application requests HRTF and the loader
(`GetLoadedHrtf`, outside the core; oracle `hrtfLoaded` gives the loaded
HRTF's sample rate) succeeds, force stereo at the HRTF's rate and mark both
fields requested; when it fails, record `ALC_HRTF_UNSUPPORTED_FORMAT_SOFT`. -/
def hrtfPhase (ext : Externals) (hrtfApp : HrtfMode) (dev : ALCdevice) : ALCdevice :=
  if dev.devType = DeviceType.Loopback then dev
  else if ext.hrtfUser = HrtfMode.Enable ∨
      (ext.hrtfUser ≠ HrtfMode.Disable ∧ hrtfApp = HrtfMode.Enable) then
    match ext.hrtfLoaded with
    | some rate =>
      { dev with FmtChans := DevFmtStereo, Frequency := rate,
                 channelsRequest := true, frequencyRequest := true,
                 HrtfHandle := true }
    | none => { dev with HrtfStatus := ALC_HRTF_UNSUPPORTED_FORMAT_SOFT }
  else dev

/-- The request-flag reconciliation after a successful backend `reset()`
(`alc.cpp:1895-1911`): install the backend-chosen fields and clear each
request flag whose field moved away from its pre-reset value. -/
def resetApply (out : ResetOut) (dev : ALCdevice) : ALCdevice :=
  let d := { dev with FmtChans := out.FmtChans, FmtType := out.FmtType,
                      Frequency := out.Frequency, UpdateSize := out.UpdateSize,
                      NumUpdates := out.NumUpdates }
  let d := if d.FmtChans ≠ dev.FmtChans ∧ dev.channelsRequest then
             { d with channelsRequest := false } else d
  let d := if d.FmtType ≠ dev.FmtType ∧ dev.sampleTypeRequest then
             { d with sampleTypeRequest := false } else d
  let d := if d.Frequency ≠ dev.Frequency ∧ dev.frequencyRequest then
             { d with frequencyRequest := false } else d
  d

/-- The backend `reset()` call (`alc.cpp:1892-1911`): on failure `none`
(the caller turns it into `ALC_INVALID_DEVICE`); on success the
reconciled device. -/
def resetPhase (r : Option ResetOut) (dev : ALCdevice) : Option ALCdevice :=
  r.map fun out => resetApply out dev

/-- The renderer init and mix-buffer allocation (`alc.cpp:1926-1956`):
install the renderer's channel counts, size the mix buffer to their sum,
then alias `RealOut` (and likewise `FOAOut`) to the dry view when its count
is zero, and store the resolved send count. -/
def mixBufferPhase (r : RendererOut) (newSends : Int) (dev : ALCdevice) : ALCdevice :=
  let d := { dev with DryChans := r.dry, FOAChans := r.foa, RealChans := r.real }
  let numChans := d.DryChans + d.FOAChans + d.RealChans
  let d := { d with MixBufferLen := numChans, DryBufOff := 0 }
  let d := if d.RealChans ≠ 0 then { d with RealBufOff := d.DryChans + d.FOAChans }
           else { d with RealBufOff := 0, RealChans := d.DryChans }
  let d := if d.FOAChans ≠ 0 then { d with FOABufOff := d.DryChans }
           else { d with FOABufOff := 0, FOAChans := d.DryChans }
  { d with NumAuxSends := newSends }

/-- The per-context update loop (`alc.cpp:2061-2174`): accumulate
`update_failed` from the slots' `deviceUpdate` outcomes; for every live
source, resize its send array when the send count changed and clear its
`PropsClean` flag; then republish context, listener and source properties
(`UpdateContextProps` and friends live outside `alc.cpp` and are modelled
from the spec: publishing an entity's properties leaves its clean flag set). -/
def contextPhase (oldSends : Int) (dev : ALCdevice) : ALCdevice × Bool :=
  let step := fun (c : CtxState) =>
    let srcs := c.srcs.map fun s =>
      let s := if oldSends ≠ dev.NumAuxSends then { s with sends := dev.NumAuxSends } else s
      { s with propsClean := false }
    let srcs := srcs.map fun s => { s with propsClean := true }
    { c with srcs := srcs, propsClean := true, lisClean := true }
  let failed := dev.contexts.any (·.slotUpdateFails)
  ({ dev with contexts := dev.contexts.map step }, failed)

/-- `UpdateDeviceParams` (`alc.cpp:1585`): the central reconfiguration
routine.  Returns the ALC error code, the device state at return, and the
backend calls made.  Control flow: the loopback missing-attribute check
(`1600`), the attribute block, the still-running early return (`1810`), the
derived-state reset, the HRTF request, backend `reset()`, renderer and mix
buffer, the per-context loop, and the restart (`2179-2184`). -/
def UpdateDeviceParams (ext : Externals) (attrs : Option (List Int))
    (dev : ALCdevice) : ALCerror × ALCdevice × List BackendEvent :=
  if attrsEmpty attrs ∧ dev.devType = DeviceType.Loopback then
    (ALCerror.InvalidValue, dev, [])
  else
    match attrPhase ext attrs dev with
    | Except.error e => (e, dev, [])
    | Except.ok a =>
      if a.dev.running then (ALCerror.NoError, a.dev, a.events)
      else
        let oldSends := dev.NumAuxSends
        let d := preResetClear a.dev
        let d := hrtfPhase ext a.hrtfApp d
        match resetPhase ext.reset d with
        | none => (ALCerror.InvalidDevice, d, a.events ++ [BackendEvent.reset])
        | some d =>
          let d := mixBufferPhase ext.renderer a.newSends d
          let dc := contextPhase oldSends d
          let evs := a.events ++ [BackendEvent.reset]
          if dc.2 then (ALCerror.InvalidDevice, dc.1, evs)
          else if ¬dc.1.paused then
            if ext.startOk then
              (ALCerror.NoError, { dc.1 with running := true }, evs ++ [BackendEvent.start])
            else (ALCerror.InvalidDevice, dc.1, evs ++ [BackendEvent.start])
          else (ALCerror.NoError, dc.1, evs)

/-! ### The deferred-update protocol (`ALCcontext_DeferUpdates` /
`ALCcontext_ProcessUpdates`, `alc.cpp:1486-1525`) -/

/-- The property-publication state of one context: the `DeferUpdates` flag
and the `PropsClean` flags of the context, its listener, its effect slots
and its live sources. -/
structure PUState where
  deferUpdates : Bool
  ctxClean : Bool
  lisClean : Bool
  slotClean : List Bool
  srcClean : List Bool
deriving DecidableEq, Repr

/-- `ALCcontext_ProcessUpdates` (`alc.cpp:1501`): when `DeferUpdates` was
set, exchange it to false, hold the mixer, and republish every pending
property — the `test_and_set` on the context and listener flags sets them,
and `UpdateAllEffectSlotProps` / `UpdateAllSourceProps` (outside `alc.cpp`,
modelled from the spec's publish-all-pending sweep) test-and-set every slot
and source flag.  When `DeferUpdates` was already clear, nothing happens. -/
def processUpdates (s : PUState) : PUState :=
  if s.deferUpdates then
    { deferUpdates := false, ctxClean := true, lisClean := true,
      slotClean := s.slotClean.map fun _ => true,
      srcClean := s.srcClean.map fun _ => true }
  else s

/-- The API-thread operations that touch the publication state. -/
inductive PUOp where
  | defer
  | process
  | mutateCtx
  | mutateLis
  | mutateSlot (i : Nat)
  | mutateSrc (i : Nat)
deriving DecidableEq, Repr

/-- Replace the `i`-th flag of a clean-flag list. -/
def setFlag (l : List Bool) (i : Nat) (b : Bool) : List Bool :=
  l.set i b

/-- One API-thread step.  `defer` is `ALCcontext_DeferUpdates`
(`alc.cpp:1492`); `process` is `ALCcontext_ProcessUpdates`.  The `mutate*`
operations model the property write path of the entity sources outside
`alc.cpp`, from the spec: a mutation clears the entity's clean flag, and
when updates are not deferred the publish-all-pending sweep that runs once
the mutation settles test-and-sets it again. -/
def puStep (op : PUOp) (s : PUState) : PUState :=
  match op with
  | PUOp.defer => { s with deferUpdates := true }
  | PUOp.process => processUpdates s
  | PUOp.mutateCtx => { s with ctxClean := !s.deferUpdates }
  | PUOp.mutateLis => { s with lisClean := !s.deferUpdates }
  | PUOp.mutateSlot i => { s with slotClean := setFlag s.slotClean i (!s.deferUpdates) }
  | PUOp.mutateSrc i => { s with srcClean := setFlag s.srcClean i (!s.deferUpdates) }

/-- Run a list of API-thread steps from a starting state. -/
def puRun (ops : List PUOp) (s : PUState) : PUState :=
  ops.foldl (fun s op => puStep op s) s

/-- A freshly created context: updates not deferred, every flag clean. -/
def puInit (nslots nsrcs : Nat) : PUState :=
  { deferUpdates := false, ctxClean := true, lisClean := true,
    slotClean := List.replicate nslots true,
    srcClean := List.replicate nsrcs true }

/-- Every `PropsClean` flag of the context is set. -/
def allClean (s : PUState) : Bool :=
  s.ctxClean && s.lisClean && s.slotClean.all id && s.srcClean.all id

/-! ### The `Connected` flag (`aluHandleDisconnect` / `alcResetDeviceSOFT`) -/

/-- Modelled from the spec: `aluHandleDisconnect` (in `Alc/ALu.cpp`, outside
the single-file core) atomically stores false into `Connected` and posts a
disconnect event to every attached context. -/
def handleDisconnect (dev : ALCdevice) : ALCdevice :=
  { dev with Connected := false }

/-- `alcResetDeviceSOFT` (`alc.cpp:4225`) after verification, for a
non-capture device: stop the backend if running, clear the running flag,
store true into `Connected` so lost devices can attempt recovery (`4244`),
run `UpdateDeviceParams`, and on failure record the error and — when it is
`ALC_INVALID_DEVICE` — disconnect.  Returns the ALC boolean result and the
device at return. -/
def alcResetDeviceSOFT (ext : Externals) (attrs : Option (List Int))
    (dev : ALCdevice) : Bool × ALCdevice :=
  let dev := { dev with running := false }
  let dev := { dev with Connected := true }
  match UpdateDeviceParams ext attrs dev with
  | (ALCerror.NoError, dev, _) => (true, dev)
  | (err, dev, _) =>
    let dev := { dev with LastError := err }
    if err = ALCerror.InvalidDevice then (false, handleDisconnect dev)
    else (false, dev)

/-- The device-lifetime operations relevant to the `Connected` flag:
a backend disconnect, an `alcResetDeviceSOFT` call, and any operation that
leaves the flag alone (queries, renders, context operations). -/
inductive ConnOp where
  | disconnect
  | resetDevice (ext : Externals) (attrs : Option (List Int))
  | passive
deriving Repr

/-- Apply one lifetime operation to the device. -/
def connStep (op : ConnOp) (dev : ALCdevice) : ALCdevice :=
  match op with
  | ConnOp.disconnect => handleDisconnect dev
  | ConnOp.resetDevice ext attrs => (alcResetDeviceSOFT ext attrs dev).2
  | ConnOp.passive => dev

/-- Run a list of lifetime operations. -/
def connRun (ops : List ConnOp) (dev : ALCdevice) : ALCdevice :=
  ops.foldl (fun d op => connStep op d) dev

/-! ### Concrete fixtures for closed instances -/

/-- A plain stereo playback device in its freshly opened, stopped state. -/
def devPlayback : ALCdevice :=
  { devType := DeviceType.Playback, running := false, paused := false,
    frequencyRequest := false, channelsRequest := false, sampleTypeRequest := false,
    Frequency := 44100, FmtChans := ALC_STEREO_SOFT, FmtType := ALC_SHORT_SOFT,
    UpdateSize := 1024, NumUpdates := 3,
    NumMonoSources := 255, NumStereoSources := 1, SourcesMax := 256, NumAuxSends := 2,
    AmbiOrder := 0, AmbiLayout := 0, AmbiScale := 0,
    MixBufferLen := 0, DryChans := 0, FOAChans := 0, RealChans := 0,
    DryBufOff := 0, FOABufOff := 0, RealBufOff := 0,
    Connected := true, LastError := ALCerror.NoError,
    HrtfStatus := 0, HrtfHandle := false,
    SamplesDone := 0, ClockBase := 0, MixCount := 0, contexts := [] }

/-- The same device while the mixer is running. -/
def devRunning : ALCdevice := { devPlayback with running := true }

/-- A loopback device. -/
def devLoopback : ALCdevice := { devPlayback with devType := DeviceType.Loopback }

/-- Oracle inputs of a quiet run: no config overrides, no HRTF, a backend
`reset()` that echoes the current stereo format, a renderer whose `FOAOut`
and `RealOut` views alias the dry mix, and a successful `start()`. -/
def extBase : Externals :=
  { cfgFreq := none, cfgPeriods := none, cfgPeriodSize := none,
    cfgSources := none, cfgSends := none, sseNeon := false,
    hrtfUser := HrtfMode.Default, hrtfLoaded := none,
    reset := some { FmtChans := ALC_STEREO_SOFT, FmtType := ALC_SHORT_SOFT,
                    Frequency := 44100, UpdateSize := 1024, NumUpdates := 3 },
    renderer := { dry := 2, foa := 0, real := 0 },
    startOk := true }

/-- Oracle inputs of a run whose renderer keeps distinct first-order and
real output mixes, on a CPU with SSE/NEON. -/
def extDistinct : Externals :=
  { extBase with renderer := { dry := 4, foa := 2, real := 2 }, sseNeon := true }

/-! ### C5 — empty attribute list: loopback rejects, others accept -/

/-- C5: with a null or zero-length attribute list, `UpdateDeviceParams`
returns `ALC_INVALID_VALUE` (leaving the device untouched) when the device
is a loopback device, and never returns `ALC_INVALID_VALUE` when it is not. -/
theorem C5_empty_attr_list (ext : Externals) (attrs : Option (List Int))
    (dev : ALCdevice) (he : attrsEmpty attrs = true) :
    (dev.devType = DeviceType.Loopback →
      UpdateDeviceParams ext attrs dev = (ALCerror.InvalidValue, dev, [])) ∧
    (dev.devType ≠ DeviceType.Loopback →
      (UpdateDeviceParams ext attrs dev).1 ≠ ALCerror.InvalidValue) := by
  constructor
  · intro hl
    simp [UpdateDeviceParams, he, hl]
  · intro hl
    have ha : attrPhase ext attrs dev =
        Except.ok ⟨dev, dev.NumAuxSends, HrtfMode.Default, -1, []⟩ := by
      simp [attrPhase, he]
    unfold UpdateDeviceParams
    rw [ha]
    split
    · rename_i hcond
      exact absurd hcond.2 hl
    · simp only []
      split
      · simp
      · split
        · simp
        · split
          · simp
          · split
            · split <;> simp
            · simp

/-- C5 witness: the loopback rejection and the playback acceptance at the
concrete fixtures. -/
theorem C5_empty_attr_list_witness :
    attrsEmpty (some [0]) = true ∧
    (UpdateDeviceParams extBase (some [0]) devLoopback =
      (ALCerror.InvalidValue, devLoopback, [])) ∧
    (UpdateDeviceParams extBase (some [0]) devPlayback).1 ≠ ALCerror.InvalidValue := by
  refine ⟨by decide, ?_, ?_⟩
  · exact (C5_empty_attr_list extBase (some [0]) devLoopback (by decide)).1 (by decide)
  · exact (C5_empty_attr_list extBase (some [0]) devPlayback (by decide)).2 (by decide)

/-! ### C6 — `alcRenderSamplesSOFT` argument handling -/

/-- C6: on a verified loopback device, rendering zero samples is a silent
no-op; a negative sample count, or a positive count with a null buffer,
records `ALC_INVALID_VALUE` and renders nothing. -/
theorem C6_render_samples (d : ALCdevice) (bn : Bool) (s : Int)
    (hl : d.devType = DeviceType.Loopback) :
    alcRenderSamplesSOFT (some d) bn 0 = (none, 0) ∧
    (s < 0 → alcRenderSamplesSOFT (some d) bn s = (some ALCerror.InvalidValue, 0)) ∧
    (0 < s → bn = true →
      alcRenderSamplesSOFT (some d) bn s = (some ALCerror.InvalidValue, 0)) := by
  refine ⟨?_, ?_, ?_⟩
  · simp [alcRenderSamplesSOFT, hl]
  · intro hs
    simp [alcRenderSamplesSOFT, hl, hs]
  · intro hs hb
    have : ¬(s < 0) := by omega
    simp [alcRenderSamplesSOFT, hl, hs, hb, this]

/-- C6 witness: the three behaviors at the loopback fixture. -/
theorem C6_render_samples_witness :
    devLoopback.devType = DeviceType.Loopback ∧
    alcRenderSamplesSOFT (some devLoopback) false 0 = (none, 0) ∧
    alcRenderSamplesSOFT (some devLoopback) false (-3) = (some ALCerror.InvalidValue, 0) ∧
    alcRenderSamplesSOFT (some devLoopback) true 1024 = (some ALCerror.InvalidValue, 0) := by
  have h := C6_render_samples devLoopback false (-3) (by decide)
  have h2 := C6_render_samples devLoopback true 1024 (by decide)
  exact ⟨by decide, h.1, h.2.1 (by decide), h2.2.2 (by decide) rfl⟩

/-! ### C7 — the last-error latch of `alcGetError` -/

/-- C7: `alcGetError` returns the device latch and resets it to `NoError`
when the argument verifies, does the same with the process-wide null-device
latch when it does not, and hence a second consecutive call returns
`NoError`. -/
theorem C7_get_error_latch (s : ErrState) :
    alcGetError true s = (s.devErr, { s with devErr := ALCerror.NoError }) ∧
    alcGetError false s = (s.nullErr, { s with nullErr := ALCerror.NoError }) ∧
    (∀ v : Bool, (alcGetError v (alcGetError v s).2).1 = ALCerror.NoError) := by
  refine ⟨rfl, rfl, ?_⟩
  intro v
  cases v <;> simp [alcGetError]

/-! ### C10 — empty attribute list on a running non-loopback device -/

/-- C10: `UpdateDeviceParams` with a null or empty attribute list on a
running non-loopback device returns `ALC_NO_ERROR` at `alc.cpp:1810` with
no backend call and the device record — format, update size, period count,
mix buffer, send count, and attached contexts — bit-for-bit unchanged. -/
theorem C10_empty_attrs_running_noop (ext : Externals) (attrs : Option (List Int))
    (dev : ALCdevice) (he : attrsEmpty attrs = true)
    (hl : dev.devType ≠ DeviceType.Loopback) (hr : dev.running = true) :
    UpdateDeviceParams ext attrs dev = (ALCerror.NoError, dev, []) := by
  have ha : attrPhase ext attrs dev =
      Except.ok ⟨dev, dev.NumAuxSends, HrtfMode.Default, -1, []⟩ := by
    simp [attrPhase, he]
  unfold UpdateDeviceParams
  rw [ha]
  split
  · rename_i hcond
    exact absurd hcond.2 hl
  · simp [hr]

/-- C10 witness: the no-op at the running playback fixture. -/
theorem C10_empty_attrs_running_noop_witness :
    attrsEmpty none = true ∧ devRunning.devType ≠ DeviceType.Loopback ∧
    devRunning.running = true ∧
    UpdateDeviceParams extBase none devRunning = (ALCerror.NoError, devRunning, []) := by
  exact ⟨by decide, by decide, by decide,
    C10_empty_attrs_running_noop extBase none devRunning (by decide) (by decide) (by decide)⟩

/-! ### C1 — mix buffer length versus the three channel counts -/

/-- The device/failure pair the context loop produces on the
reconfiguration path, after renderer and mix buffer (`alc.cpp:1926-2174`).
`oldSends` is the entry value of `device->NumAuxSends` (`alc.cpp:1590`). -/
def reconfigDevice (ext : Externals) (oldSends : Int) (a : AttrOut)
    (out : ResetOut) : ALCdevice × Bool :=
  contextPhase oldSends (mixBufferPhase ext.renderer a.newSends
    (resetApply out (hrtfPhase ext a.hrtfApp (preResetClear a.dev))))

/-- The reconfiguration tail of `UpdateDeviceParams` (`alc.cpp:1881-2186`)
after a successful backend `reset()`: the context loop, the `update_failed`
check and the restart (`alc.cpp:2176-2186`). -/
def reconfigResult (ext : Externals) (oldSends : Int) (a : AttrOut)
    (out : ResetOut) : ALCerror × ALCdevice × List BackendEvent :=
  if (reconfigDevice ext oldSends a out).2 then
    (ALCerror.InvalidDevice, (reconfigDevice ext oldSends a out).1,
     a.events ++ [BackendEvent.reset])
  else if ¬(reconfigDevice ext oldSends a out).1.paused then
    if ext.startOk then
      (ALCerror.NoError, { (reconfigDevice ext oldSends a out).1 with running := true },
       (a.events ++ [BackendEvent.reset]) ++ [BackendEvent.start])
    else
      (ALCerror.InvalidDevice, (reconfigDevice ext oldSends a out).1,
       (a.events ++ [BackendEvent.reset]) ++ [BackendEvent.start])
  else (ALCerror.NoError, (reconfigDevice ext oldSends a out).1,
        a.events ++ [BackendEvent.reset])

/-- On the reconfiguration path with a failing backend `reset()`,
`UpdateDeviceParams` returns `ALC_INVALID_DEVICE`. -/
theorem UpdateDeviceParams_reset_fail (ext : Externals) (attrs : Option (List Int))
    (dev : ALCdevice) (a : AttrOut)
    (ha : attrPhase ext attrs dev = Except.ok a) (hrun : a.dev.running = false)
    (hlp : ¬(attrsEmpty attrs = true ∧ dev.devType = DeviceType.Loopback))
    (hres : ext.reset = none) :
    (UpdateDeviceParams ext attrs dev).1 = ALCerror.InvalidDevice := by
  unfold UpdateDeviceParams
  rw [if_neg hlp, ha]
  simp [hrun, hres, resetPhase]

/-- On the reconfiguration path with a succeeding backend `reset()`,
`UpdateDeviceParams` computes `reconfigResult`. -/
theorem UpdateDeviceParams_reset_ok (ext : Externals) (attrs : Option (List Int))
    (dev : ALCdevice) (a : AttrOut) (out : ResetOut)
    (ha : attrPhase ext attrs dev = Except.ok a) (hrun : a.dev.running = false)
    (hlp : ¬(attrsEmpty attrs = true ∧ dev.devType = DeviceType.Loopback))
    (hres : ext.reset = some out) :
    UpdateDeviceParams ext attrs dev = reconfigResult ext dev.NumAuxSends a out := by
  unfold UpdateDeviceParams reconfigResult reconfigDevice
  rw [if_neg hlp, ha]
  simp [hrun, hres, resetPhase]

/-- The context loop leaves the mix buffer and channel counts alone. -/
theorem contextPhase_preserves (o : Int) (d : ALCdevice) :
    (contextPhase o d).1.MixBufferLen = d.MixBufferLen ∧
    (contextPhase o d).1.DryChans = d.DryChans ∧
    (contextPhase o d).1.FOAChans = d.FOAChans ∧
    (contextPhase o d).1.RealChans = d.RealChans :=
  ⟨rfl, rfl, rfl, rfl⟩

/-- The mix buffer is sized to the renderer's three channel counts. -/
theorem mixBufferPhase_len (r : RendererOut) (ns : Int) (d : ALCdevice) :
    (mixBufferPhase r ns d).MixBufferLen = r.dry + r.foa + r.real := by
  simp only [mixBufferPhase]
  split <;> split <;> rfl

/-- When neither aliasing branch fires, the channel counts at return still
sum to the allocation size. -/
theorem mixBufferPhase_sum (r : RendererOut) (ns : Int) (d : ALCdevice)
    (hf : r.foa ≠ 0) (hr : r.real ≠ 0) :
    (mixBufferPhase r ns d).DryChans + (mixBufferPhase r ns d).FOAChans +
      (mixBufferPhase r ns d).RealChans = r.dry + r.foa + r.real := by
  simp [mixBufferPhase, hf, hr]

/-- The device the reconfiguration path produces carries a mix buffer of
the renderer's total size, and when neither output view was aliased its
three channel counts still sum to that size. -/
theorem reconfigDevice_fields (ext : Externals) (oldSends : Int) (a : AttrOut)
    (out : ResetOut) :
    (reconfigDevice ext oldSends a out).1.MixBufferLen =
      ext.renderer.dry + ext.renderer.foa + ext.renderer.real ∧
    (ext.renderer.foa ≠ 0 → ext.renderer.real ≠ 0 →
      (reconfigDevice ext oldSends a out).1.DryChans +
        (reconfigDevice ext oldSends a out).1.FOAChans +
        (reconfigDevice ext oldSends a out).1.RealChans =
      ext.renderer.dry + ext.renderer.foa + ext.renderer.real) := by
  constructor
  · rw [show (reconfigDevice ext oldSends a out).1.MixBufferLen =
        (mixBufferPhase ext.renderer a.newSends
          (resetApply out (hrtfPhase ext a.hrtfApp (preResetClear a.dev)))).MixBufferLen
        from rfl]
    exact mixBufferPhase_len ext.renderer a.newSends _
  · intro hf hr
    rw [show (reconfigDevice ext oldSends a out).1.DryChans =
        (mixBufferPhase ext.renderer a.newSends
          (resetApply out (hrtfPhase ext a.hrtfApp (preResetClear a.dev)))).DryChans
        from rfl,
      show (reconfigDevice ext oldSends a out).1.FOAChans =
        (mixBufferPhase ext.renderer a.newSends
          (resetApply out (hrtfPhase ext a.hrtfApp (preResetClear a.dev)))).FOAChans
        from rfl,
      show (reconfigDevice ext oldSends a out).1.RealChans =
        (mixBufferPhase ext.renderer a.newSends
          (resetApply out (hrtfPhase ext a.hrtfApp (preResetClear a.dev)))).RealChans
        from rfl]
    exact mixBufferPhase_sum ext.renderer a.newSends _ hf hr

/-- C1 counterexample: a successful reconfiguration of a plain stereo
playback device, where the renderer's `FOAOut` and `RealOut` views alias the
dry mix.  `UpdateDeviceParams` sizes the buffer before the aliasing rewrites
the zero channel counts to `Dry.NumChannels`, so at return the length (2)
differs from the sum of the three fields (6). -/
theorem C1_mix_buffer_counterexample :
    (UpdateDeviceParams extBase none devPlayback).1 = ALCerror.NoError ∧
    (UpdateDeviceParams extBase none devPlayback).2.1.MixBufferLen ≠
      (UpdateDeviceParams extBase none devPlayback).2.1.DryChans +
      (UpdateDeviceParams extBase none devPlayback).2.1.FOAChans +
      (UpdateDeviceParams extBase none devPlayback).2.1.RealChans := by
  decide

/-- C1 amended: on every successful `UpdateDeviceParams` run that reaches
the reconfiguration path, the mix buffer length equals the sum of the three
channel counts as the renderer produced them, i.e. as they stood when the
buffer was allocated; the sum of the fields at return agrees with it
whenever both `FOAOut` and `RealOut` kept nonzero (non-aliased) counts. -/
theorem C1_mix_buffer_amended (ext : Externals) (attrs : Option (List Int))
    (dev : ALCdevice) (a : AttrOut)
    (ha : attrPhase ext attrs dev = Except.ok a) (hrun : a.dev.running = false)
    (hlp : ¬(attrsEmpty attrs = true ∧ dev.devType = DeviceType.Loopback))
    (hok : (UpdateDeviceParams ext attrs dev).1 = ALCerror.NoError) :
    (UpdateDeviceParams ext attrs dev).2.1.MixBufferLen =
      ext.renderer.dry + ext.renderer.foa + ext.renderer.real ∧
    (ext.renderer.foa ≠ 0 → ext.renderer.real ≠ 0 →
      (UpdateDeviceParams ext attrs dev).2.1.MixBufferLen =
        (UpdateDeviceParams ext attrs dev).2.1.DryChans +
        (UpdateDeviceParams ext attrs dev).2.1.FOAChans +
        (UpdateDeviceParams ext attrs dev).2.1.RealChans) := by
  rcases hres : ext.reset with _ | out
  · have := UpdateDeviceParams_reset_fail ext attrs dev a ha hrun hlp hres
    rw [this] at hok
    exact absurd hok (by decide)
  · have heq := UpdateDeviceParams_reset_ok ext attrs dev a out ha hrun hlp hres
    rw [heq] at hok ⊢
    have h1 := reconfigDevice_fields ext dev.NumAuxSends a out
    unfold reconfigResult at hok ⊢
    by_cases hfail : (reconfigDevice ext dev.NumAuxSends a out).2 = true
    · rw [if_pos hfail] at hok
      simp at hok
    · rw [if_neg hfail] at hok ⊢
      by_cases hp : (reconfigDevice ext dev.NumAuxSends a out).1.paused = true
      · rw [if_neg (by simp [hp])] at hok ⊢
        exact ⟨h1.1, fun hf hr => by rw [h1.1, h1.2 hf hr]⟩
      · rw [if_pos (by simp [hp])] at hok ⊢
        cases hst : ext.startOk with
        | false =>
          rw [if_neg (by simp [hst])] at hok
          simp at hok
        | true =>
          rw [if_pos (by simp [hst])] at hok ⊢
          refine ⟨h1.1, fun hf hr => ?_⟩
          simp only []
          rw [show ({ (reconfigDevice ext dev.NumAuxSends a out).1 with running := true }
              : ALCdevice).MixBufferLen =
              (reconfigDevice ext dev.NumAuxSends a out).1.MixBufferLen from rfl,
            show ({ (reconfigDevice ext dev.NumAuxSends a out).1 with running := true }
              : ALCdevice).DryChans =
              (reconfigDevice ext dev.NumAuxSends a out).1.DryChans from rfl,
            show ({ (reconfigDevice ext dev.NumAuxSends a out).1 with running := true }
              : ALCdevice).FOAChans =
              (reconfigDevice ext dev.NumAuxSends a out).1.FOAChans from rfl,
            show ({ (reconfigDevice ext dev.NumAuxSends a out).1 with running := true }
              : ALCdevice).RealChans =
              (reconfigDevice ext dev.NumAuxSends a out).1.RealChans from rfl]
          rw [h1.1, h1.2 hf hr]

/-- C1 witness: a run whose renderer keeps distinct first-order and real
output mixes, where the allocation-time equality holds. -/
theorem C1_mix_buffer_amended_witness :
    (UpdateDeviceParams extDistinct none devPlayback).1 = ALCerror.NoError ∧
    (UpdateDeviceParams extDistinct none devPlayback).2.1.MixBufferLen =
      extDistinct.renderer.dry + extDistinct.renderer.foa + extDistinct.renderer.real := by
  refine ⟨by decide, ?_⟩
  exact (C1_mix_buffer_amended extDistinct none devPlayback
    ⟨devPlayback, devPlayback.NumAuxSends, HrtfMode.Default, -1, []⟩
    rfl rfl (by decide) (by decide)).1

/-! ### C4 — backend `reset()` and the format request flags -/

/-- Oracle inputs of a run whose backend `reset()` fails. -/
def extNoReset : Externals := { extBase with reset := none }

/-- A device with the channels and frequency request flags pinned. -/
def devRequested : ALCdevice :=
  { devPlayback with channelsRequest := true, frequencyRequest := true,
                     Frequency := 48000 }

/-- A backend reset outcome that overrides the channel layout but honors
the 48000 Hz frequency. -/
def outQuad : ResetOut :=
  { FmtChans := ALC_QUAD_SOFT, FmtType := ALC_SHORT_SOFT, Frequency := 48000,
    UpdateSize := 1024, NumUpdates := 3 }

/-- C4: a failing backend `reset()` makes `UpdateDeviceParams` return
`ALC_INVALID_DEVICE`; a succeeding one never produces an error by itself —
the reconciliation only clears each of the channels / sample-type /
frequency request flags exactly when the flag was set and the post-reset
value differs from the pre-reset one. -/
theorem C4_reset_request_flags (ext : Externals) (attrs : Option (List Int))
    (dev : ALCdevice) (a : AttrOut) (out : ResetOut) (d : ALCdevice)
    (ha : attrPhase ext attrs dev = Except.ok a) (hrun : a.dev.running = false)
    (hlp : ¬(attrsEmpty attrs = true ∧ dev.devType = DeviceType.Loopback)) :
    (ext.reset = none → (UpdateDeviceParams ext attrs dev).1 = ALCerror.InvalidDevice) ∧
    (resetPhase (some out) d).map
        (fun d' => (d'.channelsRequest, d'.sampleTypeRequest, d'.frequencyRequest)) =
      some (d.channelsRequest && decide (out.FmtChans = d.FmtChans),
            d.sampleTypeRequest && decide (out.FmtType = d.FmtType),
            d.frequencyRequest && decide (out.Frequency = d.Frequency)) := by
  constructor
  · intro h0
    exact UpdateDeviceParams_reset_fail ext attrs dev a ha hrun hlp h0
  · simp only [resetPhase, Option.map_some', Option.some.injEq, resetApply]
    by_cases h1 : out.FmtChans = d.FmtChans <;>
      by_cases h2 : out.FmtType = d.FmtType <;>
        by_cases h3 : out.Frequency = d.Frequency <;>
          by_cases h4 : d.channelsRequest = true <;>
            by_cases h5 : d.sampleTypeRequest = true <;>
              by_cases h6 : d.frequencyRequest = true <;>
                simp_all

/-- C4 witness: the failing reset on the playback fixture, and the
reconciliation clearing the channels flag (layout overridden) while keeping
the honored frequency flag. -/
theorem C4_reset_request_flags_witness :
    (UpdateDeviceParams extNoReset none devPlayback).1 = ALCerror.InvalidDevice ∧
    (resetPhase (some outQuad) devRequested).map
        (fun d' => (d'.channelsRequest, d'.sampleTypeRequest, d'.frequencyRequest)) =
      some (false, false, true) := by
  have h := C4_reset_request_flags extNoReset none devPlayback
    ⟨devPlayback, devPlayback.NumAuxSends, HrtfMode.Default, -1, []⟩ outQuad devRequested
    rfl rfl (by decide)
  refine ⟨h.1 rfl, ?_⟩
  rw [h.2]
  decide

/-! ### C8 — the `ALC_SYNC` and `ALC_REFRESH` queries -/

/-- C8 counterexample: on an open loopback device the `ALC_SYNC` query does
not report false and the `ALC_REFRESH` query does not report
frequency / update-size: both store nothing, return zero values and record
`ALC_INVALID_DEVICE` (`alc.cpp:3047-3065`). -/
theorem C8_sync_refresh_counterexample :
    GetIntegervSyncRefresh (some devLoopback) ALC_SYNC 1 false =
      ⟨none, some ALCerror.InvalidDevice, 0⟩ ∧
    GetIntegervSyncRefresh (some devLoopback) ALC_REFRESH 1 false =
      ⟨none, some ALCerror.InvalidDevice, 0⟩ := by
  decide

/-- C8 amended: on playback devices the `ALC_SYNC` query reports
`ALC_FALSE` and the `ALC_REFRESH` query reports frequency / update-size
(loopback devices get `ALC_INVALID_DEVICE`, capture devices
`ALC_INVALID_ENUM`); both keys are ignored by the attribute-list walk, so
neither can be written. -/
theorem C8_sync_refresh_amended (d : ALCdevice) (size : Int)
    (hs : 0 < size) (hp : d.devType = DeviceType.Playback) :
    GetIntegervSyncRefresh (some d) ALC_SYNC size false = ⟨some 0, none, 1⟩ ∧
    GetIntegervSyncRefresh (some d) ALC_REFRESH size false =
      ⟨some (Int.ofNat (d.Frequency / d.UpdateSize)), none, 1⟩ ∧
    (∀ v rest acc, parseAttrs (ALC_SYNC :: v :: rest) acc = parseAttrs rest acc) ∧
    (∀ v rest acc, parseAttrs (ALC_REFRESH :: v :: rest) acc = parseAttrs rest acc) := by
  have hns : ¬(size ≤ 0) := by omega
  refine ⟨?_, ?_, ?_, ?_⟩
  · simp [GetIntegervSyncRefresh, hns, hp, ALC_SYNC, ALC_REFRESH]
  · simp [GetIntegervSyncRefresh, hns, hp]
  · intro v rest acc
    simp [parseAttrs, applyAttr, ALC_SYNC, ALC_FORMAT_CHANNELS_SOFT,
      ALC_FORMAT_TYPE_SOFT, ALC_FREQUENCY, ALC_AMBISONIC_LAYOUT_SOFT,
      ALC_AMBISONIC_SCALING_SOFT, ALC_AMBISONIC_ORDER_SOFT, ALC_MONO_SOURCES,
      ALC_STEREO_SOURCES, ALC_MAX_AUXILIARY_SENDS, ALC_HRTF_SOFT,
      ALC_HRTF_ID_SOFT, ALC_OUTPUT_LIMITER_SOFT]
  · intro v rest acc
    simp [parseAttrs, applyAttr, ALC_REFRESH, ALC_FORMAT_CHANNELS_SOFT,
      ALC_FORMAT_TYPE_SOFT, ALC_FREQUENCY, ALC_AMBISONIC_LAYOUT_SOFT,
      ALC_AMBISONIC_SCALING_SOFT, ALC_AMBISONIC_ORDER_SOFT, ALC_MONO_SOURCES,
      ALC_STEREO_SOURCES, ALC_MAX_AUXILIARY_SENDS, ALC_HRTF_SOFT,
      ALC_HRTF_ID_SOFT, ALC_OUTPUT_LIMITER_SOFT]

/-- C8 witness: the two queries on the playback fixture
(44100 / 1024 = 43), and the walk ignoring a `(SYNC, 1)` pair. -/
theorem C8_sync_refresh_amended_witness :
    (0 : Int) < 1 ∧ devPlayback.devType = DeviceType.Playback ∧
    GetIntegervSyncRefresh (some devPlayback) ALC_SYNC 1 false = ⟨some 0, none, 1⟩ ∧
    GetIntegervSyncRefresh (some devPlayback) ALC_REFRESH 1 false = ⟨some 43, none, 1⟩ ∧
    parseAttrs [ALC_SYNC, 1, 0] (initAttrAcc devPlayback) =
      parseAttrs [0] (initAttrAcc devPlayback) := by
  have h := C8_sync_refresh_amended devPlayback 1 (by decide) rfl
  refine ⟨by decide, rfl, h.1, ?_, h.2.2.1 1 [0] (initAttrAcc devPlayback)⟩
  rw [h.2.1]
  decide

/-! ### C9 — period count and period size clamps -/

/-- `clampu` lands in the requested interval. -/
theorem clampu_bounds (x lo hi : Nat) (h : lo ≤ hi) :
    lo ≤ clampu x lo hi ∧ clampu x lo hi ≤ hi := by
  unfold clampu
  omega

/-- The property the round-up must satisfy on the clamped range. -/
def round4OK (y : Nat) : Prop :=
  64 ≤ (y &&& 4294967292) ∧ (y &&& 4294967292) ≤ 8192 ∧
    (y &&& 4294967292) % 4 = 0

instance round4OK_decidable (y : Nat) : Decidable (round4OK y) := by
  unfold round4OK
  infer_instance

set_option maxRecDepth 4096 in
theorem round4_chunk0 : ∀ z < 1024, 67 ≤ z → round4OK z := by decide

set_option maxRecDepth 4096 in
theorem round4_chunk1 : ∀ z < 1024, round4OK (1024 + z) := by decide

set_option maxRecDepth 4096 in
theorem round4_chunk2 : ∀ z < 1024, round4OK (2048 + z) := by decide

set_option maxRecDepth 4096 in
theorem round4_chunk3 : ∀ z < 1024, round4OK (3072 + z) := by decide

set_option maxRecDepth 4096 in
theorem round4_chunk4 : ∀ z < 1024, round4OK (4096 + z) := by decide

set_option maxRecDepth 4096 in
theorem round4_chunk5 : ∀ z < 1024, round4OK (5120 + z) := by decide

set_option maxRecDepth 4096 in
theorem round4_chunk6 : ∀ z < 1024, round4OK (6144 + z) := by decide

set_option maxRecDepth 4096 in
theorem round4_chunk7 : ∀ z < 1024, round4OK (7168 + z) := by decide

theorem round4_chunk8 : ∀ z < 4, round4OK (8192 + z) := by decide

/-- The `(x + 3) & ~3u` round-up applied after the period-size clamp stays
inside `[64, 8192]` and is divisible by four. -/
theorem round4_in_range : ∀ y : Nat, y < 8196 → 67 ≤ y →
    64 ≤ (y &&& 4294967292) ∧ (y &&& 4294967292) ≤ 8192 ∧
      (y &&& 4294967292) % 4 = 0 := by
  intro y h1 h2
  have hm : y % 1024 < 1024 := Nat.mod_lt _ (by omega)
  have hcase : y / 1024 = 0 ∨ y / 1024 = 1 ∨ y / 1024 = 2 ∨ y / 1024 = 3 ∨
      y / 1024 = 4 ∨ y / 1024 = 5 ∨ y / 1024 = 6 ∨ y / 1024 = 7 ∨ y / 1024 = 8 := by
    omega
  have e : y = 1024 * (y / 1024) + y % 1024 := by omega
  rcases hcase with h | h | h | h | h | h | h | h | h
  · have hy : y = y % 1024 := by omega
    rw [hy]
    exact round4_chunk0 (y % 1024) hm (by omega)
  · have hy : y = 1024 + y % 1024 := by omega
    rw [hy]
    exact round4_chunk1 (y % 1024) hm
  · have hy : y = 2048 + y % 1024 := by omega
    rw [hy]
    exact round4_chunk2 (y % 1024) hm
  · have hy : y = 3072 + y % 1024 := by omega
    rw [hy]
    exact round4_chunk3 (y % 1024) hm
  · have hy : y = 4096 + y % 1024 := by omega
    rw [hy]
    exact round4_chunk4 (y % 1024) hm
  · have hy : y = 5120 + y % 1024 := by omega
    rw [hy]
    exact round4_chunk5 (y % 1024) hm
  · have hy : y = 6144 + y % 1024 := by omega
    rw [hy]
    exact round4_chunk6 (y % 1024) hm
  · have hy : y = 7168 + y % 1024 := by omega
    rw [hy]
    exact round4_chunk7 (y % 1024) hm
  · have hy : y = 8192 + y % 1024 := by omega
    rw [hy]
    exact round4_chunk8 (y % 1024) (by omega)

/-- The clamp followed by the round-up, for any config or default input. -/
theorem roundStep_bounds (v : Nat) :
    64 ≤ ((clampu v 64 8192 + 3) &&& 4294967292) ∧
    ((clampu v 64 8192 + 3) &&& 4294967292) ≤ 8192 ∧
    ((clampu v 64 8192 + 3) &&& 4294967292) % 4 = 0 := by
  have hb := clampu_bounds v 64 8192 (by omega)
  exact round4_in_range (clampu v 64 8192 + 3) (by omega) (by omega)

/-- The non-loopback format block leaves the period count in `[2, 16]` and
the period size in `[64, 8192]`, a multiple of four under SSE/NEON. -/
theorem nonLoopbackFmt_bounds (ext : Externals) (afreq : Nat) (dev : ALCdevice) :
    (2 ≤ (nonLoopbackFmt ext afreq dev).NumUpdates ∧
     (nonLoopbackFmt ext afreq dev).NumUpdates ≤ 16) ∧
    (64 ≤ (nonLoopbackFmt ext afreq dev).UpdateSize ∧
     (nonLoopbackFmt ext afreq dev).UpdateSize ≤ 8192) ∧
    (ext.sseNeon = true → (nonLoopbackFmt ext afreq dev).UpdateSize % 4 = 0) := by
  refine ⟨?_, ?_, ?_⟩
  · simp only [nonLoopbackFmt]
    exact clampu_bounds _ 2 16 (by omega)
  · simp only [nonLoopbackFmt]
    cases hsse : ext.sseNeon with
    | false =>
      simp only [hsse, Bool.false_eq_true, if_false]
      exact clampu_bounds _ 64 8192 (by omega)
    | true =>
      simp only [hsse, if_true]
      exact ⟨(roundStep_bounds _).1, (roundStep_bounds _).2.1⟩
  · intro hsse
    simp only [nonLoopbackFmt, hsse, if_true]
    exact (roundStep_bounds _).2.2

/-- The source-count resolution does not touch the period fields. -/
theorem resolveSources_preserves (cfg : Option Int) (m s : Int) (d : ALCdevice) :
    (resolveSources cfg m s d).NumUpdates = d.NumUpdates ∧
    (resolveSources cfg m s d).UpdateSize = d.UpdateSize :=
  ⟨rfl, rfl⟩

/-- C9: after the attribute block of `UpdateDeviceParams` processes a
non-empty attribute list for a non-loopback device, the period count lies
in `[2, 16]`, the period size in `[64, 8192]`, and with SSE or NEON present
the period size is a multiple of four. -/
theorem C9_period_bounds (ext : Externals) (attrs : Option (List Int))
    (dev : ALCdevice) (a : AttrOut)
    (hl : dev.devType ≠ DeviceType.Loopback) (hne : attrsEmpty attrs = false)
    (ha : attrPhase ext attrs dev = Except.ok a) :
    (2 ≤ a.dev.NumUpdates ∧ a.dev.NumUpdates ≤ 16) ∧
    (64 ≤ a.dev.UpdateSize ∧ a.dev.UpdateSize ≤ 8192) ∧
    (ext.sseNeon = true → a.dev.UpdateSize % 4 = 0) := by
  unfold attrPhase at ha
  rw [if_neg (by simp [hne])] at ha
  simp only [hl, if_false, ite_false, not_false_iff, and_true, if_neg,
    eq_self_iff_true, if_true, ite_true] at ha
  cases ha
  exact ⟨⟨(nonLoopbackFmt_bounds ext _ _).1.1, (nonLoopbackFmt_bounds ext _ _).1.2⟩,
    ⟨(nonLoopbackFmt_bounds ext _ _).2.1.1, (nonLoopbackFmt_bounds ext _ _).2.1.2⟩,
    fun h => (nonLoopbackFmt_bounds ext _ _).2.2 h⟩

/-- The attribute-block outcome of the C9 witness run. -/
def attrOut9 : AttrOut :=
  ((attrPhase extDistinct (some [ALC_FREQUENCY, 48000, 0]) devPlayback).toOption).getD
    ⟨devPlayback, 0, HrtfMode.Default, 0, []⟩

/-- C9 witness: a 48000 Hz request on the playback fixture with SSE/NEON
present. -/
theorem C9_period_bounds_witness :
    devPlayback.devType ≠ DeviceType.Loopback ∧
    attrsEmpty (some [ALC_FREQUENCY, 48000, 0]) = false ∧
    (2 ≤ attrOut9.dev.NumUpdates ∧ attrOut9.dev.NumUpdates ≤ 16) ∧
    (64 ≤ attrOut9.dev.UpdateSize ∧ attrOut9.dev.UpdateSize ≤ 8192) ∧
    attrOut9.dev.UpdateSize % 4 = 0 := by
  have h := C9_period_bounds extDistinct (some [ALC_FREQUENCY, 48000, 0]) devPlayback
    attrOut9 (by decide) (by decide) rfl
  exact ⟨by decide, by decide, h.1, h.2.1, h.2.2 rfl⟩

/-! ### C2 — the `Connected` flag is not monotone across `alcResetDeviceSOFT` -/

/-- Is an operation an `alcResetDeviceSOFT` call? -/
def isResetOp : ConnOp → Bool
  | ConnOp.resetDevice _ _ => true
  | _ => false

/-- Running one operation on the device list form. -/
theorem connRun_cons (op : ConnOp) (rest : List ConnOp) (d : ALCdevice) :
    connRun (op :: rest) d = connRun rest (connStep op d) := rfl

/-- Once `Connected` is false, operations other than `alcResetDeviceSOFT`
keep it false. -/
theorem connRun_keeps_false (suf : List ConnOp) (d : ALCdevice)
    (hnr : suf.all (fun op => !isResetOp op) = true)
    (hc : d.Connected = false) : (connRun suf d).Connected = false := by
  induction suf generalizing d with
  | nil => exact hc
  | cons op rest ih =>
    simp only [List.all_cons, Bool.and_eq_true] at hnr
    rw [connRun_cons]
    refine ih (connStep op d) hnr.2 ?_
    cases op with
    | disconnect => rfl
    | passive => exact hc
    | resetDevice e as => simp [isResetOp] at hnr

/-- C2 counterexample: after a disconnect has stored false, a later
`alcResetDeviceSOFT` (with a successful reconfiguration) stores true back
into `Connected` (`alc.cpp:4244`) — the flag is not false-latched for the
device's whole lifetime. -/
theorem C2_connected_counterexample :
    (connRun [ConnOp.disconnect] devPlayback).Connected = false ∧
    (connRun [ConnOp.disconnect, ConnOp.resetDevice extBase none]
       devPlayback).Connected = true := by
  decide

/-- C2 amended: `Connected` is monotone false-latching across every
operation except `alcResetDeviceSOFT`, which deliberately stores true
before renegotiating so lost devices can attempt recovery: on any suffix of
the lifetime that contains no `alcResetDeviceSOFT` call, once some prefix
has left `Connected` false it stays false. -/
theorem C2_connected_amended (pre suf : List ConnOp) (dev : ALCdevice)
    (hnr : suf.all (fun op => !isResetOp op) = true)
    (hc : (connRun pre dev).Connected = false) :
    (connRun (pre ++ suf) dev).Connected = false := by
  have hsplit : connRun (pre ++ suf) dev = connRun suf (connRun pre dev) := by
    unfold connRun
    exact List.foldl_append _ _ pre suf
  rw [hsplit]
  exact connRun_keeps_false suf _ hnr hc

/-- C2 witness: a disconnect followed by a passive query and a second
disconnect leaves the flag false. -/
theorem C2_connected_amended_witness :
    ([ConnOp.passive, ConnOp.disconnect].all (fun op => !isResetOp op) = true) ∧
    (connRun [ConnOp.disconnect] devPlayback).Connected = false ∧
    (connRun ([ConnOp.disconnect] ++ [ConnOp.passive, ConnOp.disconnect])
       devPlayback).Connected = false := by
  refine ⟨by decide, by decide, ?_⟩
  exact C2_connected_amended [ConnOp.disconnect] [ConnOp.passive, ConnOp.disconnect]
    devPlayback (by decide) (by decide)

/-! ### C3 — `ALCcontext_ProcessUpdates` leaves every clean flag set -/

/-- The list of flags republished by a full sweep is all-set. -/
theorem all_id_map_true (l : List Bool) : (l.map fun _ => true).all id = true := by
  induction l with
  | nil => rfl
  | cons b rest ih => simp [ih]

/-- A full initial flag list is all-set. -/
theorem all_id_replicate (n : Nat) : (List.replicate n true).all id = true := by
  induction n with
  | zero => rfl
  | succ k ih => simp [List.replicate, ih]

/-- Setting one flag true preserves an all-set list. -/
theorem all_id_set (l : List Bool) (i : Nat) (h : l.all id = true) :
    (l.set i true).all id = true := by
  induction l generalizing i with
  | nil => rfl
  | cons b rest ih =>
    cases i with
    | zero => simp_all
    | succ n =>
      simp only [List.set]
      simp only [List.all_cons, Bool.and_eq_true, id] at h ⊢
      exact ⟨h.1, ih n h.2⟩

/-- The publication protocol invariant: whenever `DeferUpdates` is clear,
every clean flag is set (mutations made outside a deferred span are
republished as they settle). -/
def puInv (s : PUState) : Prop := s.deferUpdates = false → allClean s = true

/-- `ALCcontext_ProcessUpdates` establishes `allClean` from any state
satisfying the invariant. -/
theorem processUpdates_allClean (s : PUState) (h : puInv s) :
    allClean (processUpdates s) = true := by
  by_cases hd : s.deferUpdates = true
  · rw [processUpdates, if_pos hd]
    simp [allClean, all_id_map_true]
  · have hd' : s.deferUpdates = false := by simpa using hd
    rw [processUpdates, if_neg (by simp [hd'])]
    exact h hd'

/-- Every API-thread step preserves the invariant. -/
theorem puStep_inv (op : PUOp) (s : PUState) (h : puInv s) : puInv (puStep op s) := by
  cases op with
  | defer =>
    intro hdf
    simp [puStep] at hdf
  | process =>
    intro _
    exact processUpdates_allClean s h
  | mutateCtx =>
    intro hdf
    simp only [puStep] at hdf ⊢
    have := h hdf
    simp only [allClean, Bool.and_eq_true] at this ⊢
    simp [hdf, this.1.1.2, this.1.2, this.2]
  | mutateLis =>
    intro hdf
    simp only [puStep] at hdf ⊢
    have := h hdf
    simp only [allClean, Bool.and_eq_true] at this ⊢
    simp [hdf, this.1.1.1, this.1.2, this.2]
  | mutateSlot i =>
    intro hdf
    simp only [puStep] at hdf ⊢
    have := h hdf
    simp only [allClean, Bool.and_eq_true] at this ⊢
    refine ⟨⟨⟨this.1.1.1, this.1.1.2⟩, ?_⟩, this.2⟩
    rw [hdf]
    exact all_id_set _ i this.1.2
  | mutateSrc i =>
    intro hdf
    simp only [puStep] at hdf ⊢
    have := h hdf
    simp only [allClean, Bool.and_eq_true] at this ⊢
    refine ⟨this.1, ?_⟩
    rw [hdf]
    exact all_id_set _ i this.2

/-- Runs from an invariant state stay in the invariant. -/
theorem puRun_inv (ops : List PUOp) (s : PUState) (h : puInv s) :
    puInv (puRun ops s) := by
  induction ops generalizing s with
  | nil => exact h
  | cons op rest ih => exact ih (puStep op s) (puStep_inv op s h)

/-- C3: in every state a context can reach from creation through deferral,
mutation and update processing, a call to `ALCcontext_ProcessUpdates`
returns with the `PropsClean` flag of every entity — context, listener,
every effect slot and every live source — set. -/
theorem C3_process_updates_all_clean (nslots nsrcs : Nat) (ops : List PUOp) :
    allClean (processUpdates (puRun ops (puInit nslots nsrcs))) = true := by
  apply processUpdates_allClean
  apply puRun_inv
  intro _
  simp [puInit, allClean, all_id_replicate]

end OpenALSoft
